import Mathlib

/-!
Shallow embedding of `src/connectrum/client.py` (class `StratumClient`):
the request-multiplexing dispatcher, request-id allocation, subscription
registration, connect-time option handling, close, and connection-loss
handling. Python dicts are modelled as association lists, JSON values as
an inductive `JVal` (with `JVal.null` standing for Python `None`), and
side effects (transport sends, future resolutions, queue puts, log lines,
task cancellation) as an explicit ordered trace of `Eff` events in program
order. Python exceptions escaping a method are modelled with `Except`.
-/

set_option autoImplicit false

namespace Connectrum

/-- JSON values as decoded by `json.loads`; `null` doubles as Python `None`. -/
inductive JVal where
  | null
  | bool (b : Bool)
  | num (n : Int)
  | str (s : String)
  | arr (xs : List JVal)
  | obj (fs : List (String × JVal))
deriving Repr

/-- A decoded inbound wire message: a Python dict keyed by strings. -/
def Msg := List (String × JVal)

/-- `d[k]` lookup returning `none` when the key is absent (first match wins). -/
def Msg.get (m : Msg) (k : String) : Option JVal :=
  (m.find? (fun p => p.1 == k)).map (fun p => p.2)

/-- `msg.get(k, None)`: Python conflates an absent key with a stored `null`,
since `json` decodes `null` to `None`; both come back as `JVal.null`. -/
def Msg.pyGet (m : Msg) (k : String) : JVal :=
  match Msg.get m k with
  | some v => v
  | none => JVal.null

/-- `k in msg`: key presence, regardless of the stored value. -/
def Msg.hasKey (m : Msg) (k : String) : Bool :=
  m.any (fun p => p.1 == k)

/-- Python truthiness of a decoded JSON value (`if not x`). -/
def pyFalsy : JVal → Bool
  | JVal.null => true
  | JVal.bool b => !b
  | JVal.num n => n == 0
  | JVal.str s => s == ""
  | JVal.arr xs => xs.isEmpty
  | JVal.obj fs => fs.isEmpty

/-- `x is None` for a value produced by `msg.get(..., None)`. -/
def JVal.isNull : JVal → Bool
  | JVal.null => true
  | _ => false

/-- The outbound request dict built by `_send_request`:
`{'id': req_id, 'method': method, 'params': params}`. -/
structure Req where
  id : Int
  method : String
  params : List JVal
deriving Repr

/-- How a pending future gets resolved by the dispatcher: `set_result(result)`
or `set_exception(ElectrumErrorResponse(err, req))`. -/
inductive Resolution where
  | fulfilled (v : JVal)
  | failed (err : JVal) (req : Req)
deriving Repr

/-- One observable side effect, in program order. -/
inductive Eff where
  | logError (s : String)
  | logWarn (s : String)
  | logDebug (s : String)
  | logInfo (s : String)
  | resolveFut (fut : Nat) (r : Resolution)
  | queuePut (q : Nat) (v : JVal)
  | registerChannel (method : String) (q : Nat)
  | sendData (msg : Req)
  | closeTransport (p : Nat)
  | cancelTask (t : Nat)
deriving Repr

/-- A Python exception escaping the modelled method. -/
inductive PyErr where
  | keyError
  | typeError
  | assertionError
  | attributeError
deriving Repr

/-- `StratumClient.__init__` state. Transports (`protocol`), futures, queues
and keep-alive tasks are identified by opaque numeric identities. -/
structure StratumClient where
  protocol : Option Nat
  next_id : Int
  inflight : List (Int × Req × Nat)
  subscriptions : List (String × List Nat)
  ka_task : Option Nat
  server_info_set : Bool
  proto_code : Option Char
deriving Repr

/-- The state set up by `StratumClient.__init__`: `next_id = 1`, empty
registries, no transport, no keep-alive task. `server_info`/`proto_code`
are unassigned attributes before `connect` runs. -/
def StratumClient.init : StratumClient :=
  { protocol := none
    next_id := 1
    inflight := []
    subscriptions := []
    ka_task := none
    server_info_set := false
    proto_code := none }

/-- Python `==` between a JSON value used as a dict key and an `int` key
(`True == 1`, `False == 0`). -/
def keyMatches (v : JVal) (k : Int) : Bool :=
  match v with
  | JVal.num n => n == k
  | JVal.bool b => (if b then (1 : Int) else 0) == k
  | _ => false

/-- `self.inflight.pop(resp_id)` with no default: remove and return the entry
whose key equals `resp_id`, or `none` (Python raises `KeyError`). -/
def inflightPop : List (Int × Req × Nat) → JVal →
    Option ((Req × Nat) × List (Int × Req × Nat))
  | [], _ => none
  | (k, e) :: rest, v =>
    if keyMatches v k then some (e, rest)
    else
      match inflightPop rest v with
      | none => none
      | some (e', rest') => some (e', (k, e) :: rest')

/-- `self.inflight[req_id] = entry`: dict assignment (overwrite or insert). -/
def inflightInsert : List (Int × Req × Nat) → Int → Req × Nat →
    List (Int × Req × Nat)
  | [], k, e => [(k, e)]
  | (k', e') :: rest, k, e =>
    if k' == k then (k, e) :: rest
    else (k', e') :: inflightInsert rest k e

/-- `self.subscriptions.get(method)`: plain `dict.get` — it does NOT invoke
the `defaultdict` factory, so an unregistered method yields `none`
(Python `None`). A non-string method matches no key. -/
def subsGet (subs : List (String × List Nat)) (method : JVal) :
    Option (List Nat) :=
  match method with
  | JVal.str k => subs.lookup k
  | _ => none

/-- `self.subscriptions[method].append(waitQ)`: `defaultdict(list)` indexing
creates the entry, then appends. -/
def subsAppend : List (String × List Nat) → String → Nat →
    List (String × List Nat)
  | [], m, q => [(m, [q])]
  | (m', qs) :: rest, m, q =>
    if m' == m then (m', qs ++ [q]) :: rest
    else (m', qs) :: subsAppend rest m q

/-- `StratumClient._got_response(msg)`: classify and route one inbound
message. Returns the updated state and the effect trace, or the Python
exception that escapes the handler. -/
def StratumClient.got_response (s : StratumClient) (m : Msg) :
    Except PyErr (StratumClient × List Eff) :=
  let resp_id := m.pyGet "id"
  if resp_id.isNull then
    -- subscription traffic comes with method set, but no req id
    let method := m.pyGet "method"
    if pyFalsy method then
      Except.ok (s, [Eff.logError "Incoming server message had no ID nor method in it"])
    else
      -- not obvious, but result is on params, not result, for subscriptions
      let result := m.pyGet "params"
      match subsGet s.subscriptions method with
      | none =>
        -- `for q in None` raises TypeError
        Except.error PyErr.typeError
      | some qs =>
        Except.ok (s, Eff.logDebug "Traffic on subscription" ::
          qs.map (fun q => Eff.queuePut q result))
  else
    -- assert 'method' not in msg
    if m.hasKey "method" then Except.error PyErr.assertionError
    else
      let result := m.pyGet "result"
      -- fetch and forget about the request
      match inflightPop s.inflight resp_id with
      | none => Except.error PyErr.keyError
      | some ((req, fut), rest) =>
        let s' := { s with inflight := rest }
        if m.hasKey "error" then
          let err := (Msg.get m "error").getD JVal.null
          Except.ok (s', [Eff.logInfo "Error response",
            Eff.resolveFut fut (Resolution.failed err req)])
        else
          Except.ok (s', [Eff.resolveFut fut (Resolution.fulfilled result)])

/-- The future resolutions contained in an effect trace, in order. -/
def resolutions (effs : List Eff) : List (Nat × Resolution) :=
  effs.filterMap (fun e =>
    match e with
    | Eff.resolveFut f r => some (f, r)
    | _ => none)

/-- Return value of `_send_request`: `fut` for a plain call,
`(fut, waitQ)` for a subscription. -/
inductive SendRet where
  | futOnly (fut : Nat)
  | futAndQueue (fut : Nat) (q : Nat)
deriving Repr

/-- `StratumClient._send_request(method, params, is_subscribe)`.
`newQ`/`newFut` are the identities of the freshly created `asyncio.Queue`
and `asyncio.Future`. Effects are listed in program order; state mutations
(id bump, subscription append, inflight insert) all precede the
`protocol.send_data(msg)` call, which raises `AttributeError` when no
transport is installed (`self.protocol is None`). -/
def StratumClient.send_request (s : StratumClient) (method : String)
    (params : List JVal) (is_subscribe : Bool) (newQ newFut : Nat) :
    StratumClient × List Eff × Except PyErr SendRet :=
  -- pick a new ID
  let next := s.next_id + 1
  let req_id := next
  let msg : Req := { id := req_id, method := method, params := params }
  -- subscriptions are a Q, normal requests are a future
  let subs' := if is_subscribe then subsAppend s.subscriptions method newQ
               else s.subscriptions
  let regTrace := if is_subscribe then [Eff.registerChannel method newQ]
                  else []
  let inflight' := inflightInsert s.inflight req_id (msg, newFut)
  let s' := { s with next_id := next, subscriptions := subs',
                     inflight := inflight' }
  match s.protocol with
  | none => (s', regTrace, Except.error PyErr.attributeError)
  | some _ =>
    (s', regTrace ++ [Eff.sendData msg],
     Except.ok (if is_subscribe then SendRet.futAndQueue newFut newQ
                else SendRet.futOnly newFut))

/-- `StratumClient.close()`. -/
def StratumClient.close (s : StratumClient) : StratumClient × List Eff :=
  let (s1, e1) :=
    match s.protocol with
    | some p => ({ s with protocol := none }, [Eff.closeTransport p])
    | none => (s, ([] : List Eff))
  match s1.ka_task with
  | some t => ({ s1 with ka_task := none }, e1 ++ [Eff.cancelTask t])
  | none => (s1, e1)

/-- `StratumClient._connection_lost(protocol)`: the reporting transport is
compared by identity (`protocol is not self.protocol`) and the event is
ignored unless it is the currently-installed one. -/
def StratumClient.connection_lost (s : StratumClient) (p : Nat) :
    StratumClient × List Eff :=
  -- Ignore connection_lost for old connections
  if s.protocol = some p then
    let s1 := { s with protocol := none }
    match s1.ka_task with
    | some t =>
      ({ s1 with ka_task := none },
       [Eff.logWarn "Electrum server connection lost", Eff.cancelTask t])
    | none => (s1, [Eff.logWarn "Electrum server connection lost"])
  else (s, [])

/-- The `use_tor` argument of `connect`: Python accepts `False` (off),
`True` (on, unpacking raises `TypeError`, caught, defaulting the proxy to
`localhost:9150`), or a `(host, port)` pair. -/
inductive TorOpt where
  | off
  | flag
  | addr (host : String) (port : Int)
deriving Repr

/-- `ServerInfo.get_port(proto_code)` as used by `connect`:
returns `(hostname, port, use_ssl)`. -/
structure ServerInfo where
  get_port : Char → String × Int × Bool

/-- The `ssl` argument eventually handed to the connection call:
`False`, `True`, or the liberal `SSLContext` with `check_hostname = False`
and `verify_mode = CERT_NONE`. -/
inductive SslMode where
  | plain
  | verified
  | permissive
deriving Repr

/-- A connect-time Python exception. -/
inductive ConnectErr where
  | notImplementedError (msg : String)
  | assertionError (msg : String)
deriving Repr

/-- What `connect` is about to hand to the network layer
(`aiosocks.create_connection` or `loop.create_connection`). -/
structure ConnPlan where
  proxy : Option (String × Int)
  sslArg : SslMode
  dst : String × Int
deriving Repr

/-- The pre-network phase of `StratumClient.connect(server_info, proto_code,
use_tor, disable_cert_verify, proxy)`: everything up to (but excluding) the
awaited connection call. `self.server_info` and `self.proto_code` are
assigned first; the `'g'` (websocket) check raises `NotImplementedError`
after that assignment; the Tor branch resolves the SOCKS endpoint, forces
`disable_cert_verify = True` and asserts that no explicit `proxy` was also
given. -/
def StratumClient.connect_pre (s : StratumClient) (proto_code : Char)
    (si : ServerInfo) (use_tor : TorOpt) (disable_cert_verify : Bool)
    (proxy : Option (String × Int)) :
    StratumClient × Except ConnectErr ConnPlan :=
  let s := { s with server_info_set := true, proto_code := some proto_code }
  if proto_code = 'g' then
    (s, Except.error (ConnectErr.notImplementedError
          "sorry no WebSocket transport yet"))
  else
    let (hostname, port, use_ssl) := si.get_port proto_code
    let sslFor : Bool → SslMode := fun dcv =>
      if use_ssl && dcv then SslMode.permissive
      else if use_ssl then SslMode.verified
      else SslMode.plain
    match use_tor with
    | TorOpt.off =>
      (s, Except.ok { proxy := proxy, sslArg := sslFor disable_cert_verify,
                      dst := (hostname, port) })
    | tor =>
      let (socks_host, socks_port) :=
        match tor with
        | TorOpt.addr h p => (h, p)
        | _ => ("localhost", (9150 : Int))
      if proxy.isSome then
        (s, Except.error (ConnectErr.assertionError
              "Sorry not yet supporting proxy->tor->dest"))
      else
        (s, Except.ok { proxy := some (socks_host, socks_port),
                        sslArg := sslFor true, dst := (hostname, port) })

/-- The request IDs allocated by a sequence of `call`/`subscribe`
invocations (each routed through `_send_request`), in order. The allocated
ID of one invocation is the post-state's `next_id`. -/
def runSends : StratumClient → List (String × List JVal × Bool) → List Int
  | _, [] => []
  | s, (m, p, b) :: rest =>
    let s' := (StratumClient.send_request s m p b 0 0).1
    s'.next_id :: runSends s' rest

/-- Concrete fixture: a freshly-initialized client with transport 1
installed and keep-alive task 2 running. -/
def sConnected : StratumClient :=
  { StratumClient.init with protocol := some 1, ka_task := some 2 }

/-- Concrete fixture: the outbound request with id 7. -/
def req7 : Req := { id := 7, method := "server.banner", params := [] }

/-- Concrete fixture: a client with one pending call, id 7, future 3. -/
def sPending7 : StratumClient :=
  { StratumClient.init with inflight := [(7, req7, 3)] }

/-- Concrete fixture: the spec's example error response
`{"id":7,"error":{"code":1,"message":"bad"}}`. -/
def msgErr7 : Msg :=
  [("id", JVal.num 7),
   ("error", JVal.obj [("code", JVal.num 1), ("message", JVal.str "bad")])]

/-- Concrete fixture: a malformed message carrying both `id` and `method`. -/
def msgIdAndMethod : Msg :=
  [("id", JVal.num 7), ("method", JVal.str "server.banner"),
   ("result", JVal.num 1)]

/-- Concrete fixture: three sequential invocations — two plain calls and a
subscription. -/
def specs3 : List (String × List JVal × Bool) :=
  [("server.version", [], false),
   ("server.banner", [], false),
   ("server.peers.subscribe", [], true)]

/-- Concrete fixture: an endpoint whose `'s'` protocol uses TLS on
port 50002. -/
def siTls : ServerInfo :=
  { get_port := fun _ => ("erbium1.sytes.net", 50002, true) }

/-- `_send_request` always bumps `next_id` by exactly one, whether or not
the send itself succeeds. -/
theorem send_request_next_id (s : StratumClient) (m : String)
    (p : List JVal) (b : Bool) (q f : Nat) :
    (StratumClient.send_request s m p b q f).1.next_id = s.next_id + 1 := by
  cases hp : s.protocol <;> simp [StratumClient.send_request, hp]

/-- Every ID allocated by a run of `_send_request` invocations exceeds the
starting `next_id`. -/
theorem runSends_lb (specs : List (String × List JVal × Bool))
    (s : StratumClient) : ∀ y ∈ runSends s specs, s.next_id < y := by
  induction specs generalizing s with
  | nil => simp [runSends]
  | cons x rest ih =>
    obtain ⟨m, p, b⟩ := x
    intro y hy
    simp only [runSends, List.mem_cons] at hy
    rcases hy with h | h
    · rw [h, send_request_next_id]; omega
    · have := ih _ y h
      rw [send_request_next_id] at this
      omega

/-- The IDs allocated by a run of `_send_request` invocations are strictly
increasing in allocation order. -/
theorem runSends_pairwise (specs : List (String × List JVal × Bool))
    (s : StratumClient) : (runSends s specs).Pairwise (· < ·) := by
  induction specs generalizing s with
  | nil => simp [runSends]
  | cons x rest ih =>
    obtain ⟨m, p, b⟩ := x
    simp only [runSends, List.pairwise_cons]
    exact ⟨fun y hy => runSends_lb rest _ y hy, ih _⟩

/-- Appending a channel for `method` makes it the last channel the
registry returns for `method`. -/
theorem lookup_subsAppend (subs : List (String × List Nat)) (m : String)
    (q : Nat) :
    (subsAppend subs m q).lookup m = some ((subs.lookup m).getD [] ++ [q]) := by
  induction subs with
  | nil => simp [subsAppend, List.lookup]
  | cons hd tl ih =>
    obtain ⟨k, qs⟩ := hd
    by_cases hk : k = m
    · subst hk
      simp [subsAppend, List.lookup]
    · have hk' : (k == m) = false := by
        simp [hk]
      have hk2 : (m == k) = false := by
        simp
        exact fun h => hk h.symm
      simp [subsAppend, List.lookup, hk', hk2, ih]

/-- Claim C8: `close()` is idempotent — a second `close()` leaves the state
exactly as the first left it and performs no observable effect (no
transport closed, no keep-alive task cancelled, no error). -/
theorem C8_close_idempotent (s : StratumClient) :
    StratumClient.close (StratumClient.close s).1 =
      ((StratumClient.close s).1, ([] : List Eff)) := by
  cases hp : s.protocol <;> cases hk : s.ka_task <;>
    simp [StratumClient.close, hp, hk]

/-- Claim C9: a connection-loss event reported by a transport that is not
the currently-installed one changes nothing: the whole client state
(transport reference, keep-alive task, pending-request registry,
subscription registry) is returned untouched and no effect is performed. -/
theorem C9_stale_loss_no_change (s : StratumClient) (p : Nat)
    (h : s.protocol ≠ some p) :
    StratumClient.connection_lost s p = (s, ([] : List Eff)) := by
  simp [StratumClient.connection_lost, h]

/-- Witness for C9 at a concrete state: transport 1 installed, keep-alive
task 2 running, loss reported by stale transport 9. -/
theorem C9_stale_loss_no_change_witness :
    sConnected.protocol ≠ some 9 ∧
    StratumClient.connection_lost sConnected 9 =
      (sConnected, ([] : List Eff)) := by
  refine ⟨by simp [sConnected, StratumClient.init], ?_⟩
  exact C9_stale_loss_no_change _ 9
    (by simp [sConnected, StratumClient.init])

/-- Claim C10: `connect` with the unsupported protocol code `'g'` fails with
`NotImplementedError` before producing any connection plan (so before any
network progress), yet the failed call has already assigned
`self.server_info` and `self.proto_code`; the rest of the client state is
untouched. -/
theorem C10_connect_g_fails_after_state_mutation (s : StratumClient)
    (si : ServerInfo) (use_tor : TorOpt) (dcv : Bool)
    (proxy : Option (String × Int)) :
    StratumClient.connect_pre s 'g' si use_tor dcv proxy =
      ({ s with server_info_set := true, proto_code := some 'g' },
       Except.error (ConnectErr.notImplementedError
         "sorry no WebSocket transport yet")) := by
  simp [StratumClient.connect_pre]

/-- Claim C1: an inbound message whose `id` matches a pending request (and
which, being a response, carries no `method` field) makes the dispatcher
remove that pending entry from `inflight` and resolve its future exactly
once — as failed with an `ElectrumErrorResponse` carrying the
server-supplied error object and the original request when the message has
an `error` field, and otherwise as fulfilled with the message's `result`
value. -/
theorem C1_response_resolution (s : StratumClient) (m : Msg) (req : Req)
    (fut : Nat) (rest : List (Int × Req × Nat))
    (hid : (Msg.pyGet m "id").isNull = false)
    (hm : Msg.hasKey m "method" = false)
    (hpop : inflightPop s.inflight (Msg.pyGet m "id") =
      some ((req, fut), rest)) :
    ∃ acts, StratumClient.got_response s m =
        Except.ok ({ s with inflight := rest }, acts) ∧
      resolutions acts =
        [(fut,
          if Msg.hasKey m "error" then
            Resolution.failed ((Msg.get m "error").getD JVal.null) req
          else Resolution.fulfilled (Msg.pyGet m "result"))] := by
  cases herr : Msg.hasKey m "error" with
  | false =>
    refine ⟨[Eff.resolveFut fut (Resolution.fulfilled (Msg.pyGet m "result"))],
      ?_, ?_⟩
    · simp [StratumClient.got_response, hid, hm, hpop, herr]
    · simp [resolutions, herr]
  | true =>
    refine ⟨[Eff.logInfo "Error response",
      Eff.resolveFut fut
        (Resolution.failed ((Msg.get m "error").getD JVal.null) req)],
      ?_, ?_⟩
    · simp [StratumClient.got_response, hid, hm, hpop, herr]
    · simp [resolutions, herr]

/-- Witness for C1 at a concrete input: pending call id 7 (future 3), and
the inbound error response from the spec's example,
`{"id":7,"error":{"code":1,"message":"bad"}}`. -/
theorem C1_response_resolution_witness :
    (Msg.pyGet msgErr7 "id").isNull = false ∧
    Msg.hasKey msgErr7 "method" = false ∧
    inflightPop sPending7.inflight (Msg.pyGet msgErr7 "id") =
      some ((req7, 3), []) ∧
    (∃ acts, StratumClient.got_response sPending7 msgErr7 =
        Except.ok ({ sPending7 with inflight := [] }, acts) ∧
      resolutions acts =
        [(3,
          if Msg.hasKey msgErr7 "error" then
            Resolution.failed ((Msg.get msgErr7 "error").getD JVal.null) req7
          else Resolution.fulfilled (Msg.pyGet msgErr7 "result"))]) := by
  refine ⟨rfl, rfl, rfl, ?_⟩
  exact C1_response_resolution sPending7 msgErr7 req7 3 [] rfl rfl rfl

/-- Claim C2 (code behavior at the failing input): an inbound response
whose `id` has no matching pending request does NOT get logged and
dropped — `self.inflight.pop(resp_id)` is called without a default, so the
dispatcher raises `KeyError`; the `if not inf:` logging branch is dead
code. Evaluated at `{"id":7,"result":42}` against a fresh client with an
empty pending-request registry. -/
theorem C2_unknown_id_raises_keyError :
    StratumClient.got_response StratumClient.init
      [("id", JVal.num 7), ("result", JVal.num 42)] =
      Except.error PyErr.keyError := rfl

/-- Counterexample to claim C3 as stated: the message
`{"id":1,"method":"x"}` carries both an `id` and a `method` field, and the
dispatcher does not drop it without raising — `assert 'method' not in msg`
fails, so `_got_response` raises `AssertionError`. -/
theorem C3_counterexample_id_and_method_raises :
    StratumClient.got_response StratumClient.init
      [("id", JVal.num 1), ("method", JVal.str "x")] =
      Except.error PyErr.assertionError := rfl

/-- Claim C3 as amended: an inbound message carrying both an `id` field
(one whose value is not `null`) and a `method` field makes the dispatcher
raise `AssertionError`; no pending call is resolved and no other effect is
performed. -/
theorem C3_amended_assertion_on_id_and_method (s : StratumClient) (m : Msg)
    (hid : (Msg.pyGet m "id").isNull = false)
    (hm : Msg.hasKey m "method" = true) :
    StratumClient.got_response s m = Except.error PyErr.assertionError := by
  simp [StratumClient.got_response, hid, hm]

/-- Witness for the amended C3 at a concrete input: a client with a pending
call for id 7 receiving `{"id":7,"method":"server.banner","result":1}`. -/
theorem C3_amended_assertion_witness :
    (Msg.pyGet msgIdAndMethod "id").isNull = false ∧
    Msg.hasKey msgIdAndMethod "method" = true ∧
    StratumClient.got_response sPending7 msgIdAndMethod =
      Except.error PyErr.assertionError := by
  refine ⟨rfl, rfl, ?_⟩
  exact C3_amended_assertion_on_id_and_method sPending7 msgIdAndMethod rfl rfl

/-- Claim C4 (code behavior at the failing input): a notification whose
method has no registered subscription channels is NOT dropped silently —
`self.subscriptions.get(method)` bypasses the `defaultdict` factory and
returns `None`, so `for q in subs` raises `TypeError`. Evaluated at
`{"method":"server.peers.subscribe","params":[]}` against a fresh client
with an empty subscription registry. -/
theorem C4_unregistered_notification_raises_typeError :
    StratumClient.got_response StratumClient.init
      [("method", JVal.str "server.peers.subscribe"),
       ("params", JVal.arr [])] =
      Except.error PyErr.typeError := rfl

/-- Claim C5: over any sequence of N `call`/`subscribe` invocations (each
routed through `_send_request`) on one client whose `next_id` starts at the
`__init__` value 1, the N allocated request IDs are strictly increasing in
allocation order (hence pairwise distinct), and the first allocated ID
is 2. -/
theorem C5_ids_strictly_increasing_from_two (s : StratumClient)
    (specs : List (String × List JVal × Bool)) (h : s.next_id = 1) :
    (runSends s specs).Pairwise (· < ·) ∧
    (runSends s specs).Pairwise (· ≠ ·) ∧
    (specs ≠ [] → (runSends s specs).head? = some 2) := by
  refine ⟨runSends_pairwise specs s,
    (runSends_pairwise specs s).imp (fun hlt => ne_of_lt hlt), ?_⟩
  intro hne
  match specs with
  | [] => exact absurd rfl hne
  | (m, p, b) :: rest =>
    simp [runSends, send_request_next_id, h]

/-- Witness for C5 at a concrete input: a fresh client issuing two calls
and one subscription. -/
theorem C5_ids_witness :
    StratumClient.init.next_id = 1 ∧
    ((runSends StratumClient.init specs3).Pairwise (· < ·) ∧
     (runSends StratumClient.init specs3).Pairwise (· ≠ ·) ∧
     (specs3 ≠ [] → (runSends StratumClient.init specs3).head? = some 2)) := by
  exact ⟨rfl, C5_ids_strictly_increasing_from_two StratumClient.init specs3 rfl⟩

/-- Claim C6: in `_send_request` with `is_subscribe = True` on a connected
client, the new subscription channel is appended to the subscription
registry strictly before the request is handed to the transport — in the
effect trace the `registerChannel` event precedes the `sendData` event —
and consequently a notification for that method delivered against the
post-send state is routed to the new channel (its queue receives a put),
so it is never missed. -/
theorem C6_register_before_send (s : StratumClient) (pr : Nat)
    (method : String) (params : List JVal) (newQ newFut : Nat)
    (hp : s.protocol = some pr) (hm : method ≠ "") :
    (∃ i j, i < j ∧
      (StratumClient.send_request s method params true newQ newFut).2.1.get? i =
        some (Eff.registerChannel method newQ) ∧
      (StratumClient.send_request s method params true newQ newFut).2.1.get? j =
        some (Eff.sendData
          { id := s.next_id + 1, method := method, params := params })) ∧
    ∀ P : JVal, ∃ acts,
      StratumClient.got_response
          (StratumClient.send_request s method params true newQ newFut).1
          [("method", JVal.str method), ("params", P)] =
        Except.ok
          ((StratumClient.send_request s method params true newQ newFut).1,
           acts) ∧
      Eff.queuePut newQ P ∈ acts := by
  have htrace :
      (StratumClient.send_request s method params true newQ newFut).2.1 =
      [Eff.registerChannel method newQ,
       Eff.sendData
         { id := s.next_id + 1, method := method, params := params }] := by
    simp [StratumClient.send_request, hp]
  have hsubs :
      (StratumClient.send_request s method params true newQ newFut).1.subscriptions =
      subsAppend s.subscriptions method newQ := by
    simp [StratumClient.send_request, hp]
  refine ⟨⟨0, 1, by omega, by rw [htrace]; rfl, by rw [htrace]; rfl⟩, ?_⟩
  intro P
  have h1 : Msg.pyGet [("method", JVal.str method), ("params", P)] "id" =
      JVal.null := rfl
  have h2 : Msg.pyGet [("method", JVal.str method), ("params", P)] "method" =
      JVal.str method := rfl
  have h3 : Msg.pyGet [("method", JVal.str method), ("params", P)] "params" =
      P := rfl
  have hmb : (method == "") = false := by simp [hm]
  refine ⟨Eff.logDebug "Traffic on subscription" ::
    (((s.subscriptions.lookup method).getD [] ++ [newQ]).map
      (fun q => Eff.queuePut q P)), ?_, ?_⟩
  · simp [StratumClient.got_response, h1, h2, h3, JVal.isNull, pyFalsy, hmb,
      subsGet, hsubs, lookup_subsAppend]
  · simp

/-- Witness for C6 at a concrete input: a connected client subscribing to
`server.peers.subscribe` with fresh queue 5 and future 6. -/
theorem C6_register_before_send_witness :
    sConnected.protocol = some 1 ∧
    ("server.peers.subscribe" : String) ≠ "" ∧
    ((∃ i j, i < j ∧
      (StratumClient.send_request sConnected "server.peers.subscribe" [] true
        5 6).2.1.get? i = some (Eff.registerChannel "server.peers.subscribe" 5) ∧
      (StratumClient.send_request sConnected "server.peers.subscribe" [] true
        5 6).2.1.get? j = some (Eff.sendData
          { id := sConnected.next_id + 1, method := "server.peers.subscribe",
            params := [] })) ∧
    ∀ P : JVal, ∃ acts,
      StratumClient.got_response
          (StratumClient.send_request sConnected "server.peers.subscribe" []
            true 5 6).1
          [("method", JVal.str "server.peers.subscribe"), ("params", P)] =
        Except.ok
          ((StratumClient.send_request sConnected "server.peers.subscribe" []
            true 5 6).1, acts) ∧
      Eff.queuePut 5 P ∈ acts) := by
  refine ⟨rfl, by decide, ?_⟩
  exact C6_register_before_send sConnected 1 "server.peers.subscribe" [] 5 6
    rfl (by decide)

/-- Claim C7: under the Tor/anonymity-network routing branch of `connect`
(`use_tor` truthy, protocol code supported): requesting it without proxy
specifics defaults the SOCKS proxy to `localhost:9150`; certificate
verification is forced off regardless of the caller's
`disable_cert_verify` — when the endpoint uses TLS the plan carries the
permissive context, never the verifying one; and supplying an explicit
`proxy` at the same time fails with the configuration-rejecting
`AssertionError` ("Sorry not yet supporting proxy->tor->dest"), the
behavior the spec's taxonomy names `ConfigurationError`. -/
theorem C7_tor_proxy_policy (s : StratumClient) (c : Char) (si : ServerInfo)
    (use_tor : TorOpt) (dcv : Bool)
    (htor : use_tor ≠ TorOpt.off) (hc : c ≠ 'g') :
    (use_tor = TorOpt.flag →
      ∃ plan,
        (StratumClient.connect_pre s c si use_tor dcv none).2 =
          Except.ok plan ∧
        plan.proxy = some ("localhost", 9150)) ∧
    (∀ plan,
      (StratumClient.connect_pre s c si use_tor dcv none).2 =
        Except.ok plan →
      plan.sslArg =
        (if (si.get_port c).2.2 then SslMode.permissive else SslMode.plain)) ∧
    (∀ ph pp,
      (StratumClient.connect_pre s c si use_tor dcv (some (ph, pp))).2 =
        Except.error (ConnectErr.assertionError
          "Sorry not yet supporting proxy->tor->dest")) := by
  rcases hgp : si.get_port c with ⟨host, port, use_ssl⟩
  cases use_tor with
  | off => exact absurd rfl htor
  | flag =>
    refine ⟨fun _ => ?_, fun plan hplan => ?_, fun ph pp => ?_⟩
    · cases use_ssl with
      | false =>
        have hrun : (StratumClient.connect_pre s c si TorOpt.flag dcv none).2 =
            Except.ok { proxy := some ("localhost", 9150),
                        sslArg := SslMode.plain, dst := (host, port) } := by
          simp [StratumClient.connect_pre, hc, hgp]
        exact ⟨_, hrun, rfl⟩
      | true =>
        have hrun : (StratumClient.connect_pre s c si TorOpt.flag dcv none).2 =
            Except.ok { proxy := some ("localhost", 9150),
                        sslArg := SslMode.permissive, dst := (host, port) } := by
          simp [StratumClient.connect_pre, hc, hgp]
        exact ⟨_, hrun, rfl⟩
    · cases use_ssl with
      | false =>
        simp [StratumClient.connect_pre, hc, hgp] at hplan
        rw [← hplan]
        simp
      | true =>
        simp [StratumClient.connect_pre, hc, hgp] at hplan
        rw [← hplan]
        simp
    · simp [StratumClient.connect_pre, hc, hgp]
  | addr th tp =>
    refine ⟨fun h => TorOpt.noConfusion h, fun plan hplan => ?_,
      fun ph pp => ?_⟩
    · cases use_ssl with
      | false =>
        simp [StratumClient.connect_pre, hc, hgp] at hplan
        rw [← hplan]
        simp
      | true =>
        simp [StratumClient.connect_pre, hc, hgp] at hplan
        rw [← hplan]
        simp
    · simp [StratumClient.connect_pre, hc, hgp]

/-- Witness for C7 at a concrete input: protocol code `'s'`, an endpoint
using TLS on port 50002, `use_tor = True` and `disable_cert_verify =
False`. -/
theorem C7_tor_proxy_policy_witness :
    (TorOpt.flag ≠ TorOpt.off) ∧ (('s' : Char) ≠ 'g') ∧
    ((TorOpt.flag = TorOpt.flag →
      ∃ plan,
        (StratumClient.connect_pre StratumClient.init 's' siTls TorOpt.flag
          false none).2 = Except.ok plan ∧
        plan.proxy = some ("localhost", 9150)) ∧
    (∀ plan,
      (StratumClient.connect_pre StratumClient.init 's' siTls TorOpt.flag
        false none).2 = Except.ok plan →
      plan.sslArg =
        (if (siTls.get_port 's').2.2 then SslMode.permissive
         else SslMode.plain)) ∧
    (∀ ph pp,
      (StratumClient.connect_pre StratumClient.init 's' siTls TorOpt.flag
        false (some (ph, pp))).2 =
        Except.error (ConnectErr.assertionError
          "Sorry not yet supporting proxy->tor->dest"))) := by
  refine ⟨fun h => TorOpt.noConfusion h, by decide, ?_⟩
  exact C7_tor_proxy_policy StratumClient.init 's' siTls TorOpt.flag false
    (fun h => TorOpt.noConfusion h) (by decide)

end Connectrum
